import Mathlib

/-!
# kops `delete instance`: instance matching, the safety gate and the completion formatter

A shallow embedding of `cmd/kops/delete_instance.go`.

Conventions of the embedding

* Go strings are Lean `String`s; `len` is the byte length.
* A Go pointer that may be nil is an `Option`; the elements of `Ready` and `NeedUpdate`
  (`[]*CloudInstance`) and the values of the group map are taken to be non-nil, as
  `GetCloudGroups` builds them.
* A Go `map[string]*CloudInstanceGroup` is a list of key/value entries.  The order of the
  list handed to a function that ranges over the map is the order in which that `range`
  loop visits the entries; Go leaves this order unspecified, so two loops over the same
  map are two lists that are permutations of each other.
* A Go `error` is an `Option String` (`none` is the nil error).
-/

namespace Kops

/-! ## Data model -/

/-- The part of `v1.Node` the command reads: `Node.Name`. -/
structure Node where
  Name : String
  deriving DecidableEq, Repr

/-- The part of `kopsapi.InstanceGroup` the command reads: `InstanceGroup.Name`. -/
structure InstanceGroup where
  Name : String
  deriving DecidableEq, Repr

/-- What is read through the back-reference `CloudInstance.CloudInstanceGroup`: the
`InstanceGroup` pointer of the group the pointer refers to. -/
structure GroupRef where
  InstanceGroup : Option InstanceGroup
  deriving DecidableEq, Repr

/-- The fields of `cloudinstances.CloudInstance` used by the command. -/
structure CloudInstance where
  ID : String
  Node : Option Node
  CloudInstanceGroup : Option GroupRef
  deriving DecidableEq, Repr

/-- The fields of `cloudinstances.CloudInstanceGroup` used by the command. -/
structure CloudInstanceGroup where
  InstanceGroup : Option InstanceGroup
  Ready : List CloudInstance
  NeedUpdate : List CloudInstance
  deriving DecidableEq, Repr

/-- The value a back-reference to `g` dereferences to. -/
def CloudInstanceGroup.ref (g : CloudInstanceGroup) : GroupRef :=
  ⟨g.InstanceGroup⟩

/-- The map `groups` returned by `GetCloudGroups`, as its entries in visit order. -/
abbrev Groups := List (String × CloudInstanceGroup)

/-- The command object `DeleteInstanceOptions`; durations are nanosecond counts. The embedded
`kubeconfig.CreateKubecfgOptions` is only forwarded to `RESTConfig` and is left out. -/
structure DeleteInstanceOptions where
  Yes : Bool
  CloudOnly : Bool
  FailOnDrainError : Bool
  FailOnValidate : Bool
  PostDrainDelay : Int
  ValidationTimeout : Int
  ValidateCount : Int
  ClusterName : String
  InstanceID : String
  Surge : Bool
  deriving DecidableEq, Repr

/-! ## The instance matcher -/

/-- Source `deleteNodeMatch`. -/
def deleteNodeMatch (cloudMember : CloudInstance) (options : DeleteInstanceOptions) : Bool :=
  cloudMember.ID == options.InstanceID ||
    (!options.CloudOnly && cloudMember.Node.isSome &&
      (match cloudMember.Node with
       | some node => node.Name == options.InstanceID
       | none => false))

/-- Source `findDeletionNode`: the outer loop ranges over the map entries in the order of
`groups`, the two inner loops over `Ready` and then `NeedUpdate`, returning at the first
instance for which `deleteNodeMatch` holds. -/
def findDeletionNode (groups : Groups) (options : DeleteInstanceOptions) : Option CloudInstance :=
  match groups with
  | [] => none
  | (_, group) :: rest =>
    match group.Ready.find? (fun r => deleteNodeMatch r options) with
    | some r => some r
    | none =>
      match group.NeedUpdate.find? (fun r => deleteNodeMatch r options) with
      | some r => some r
      | none => findDeletionNode rest options

/-- The matching relation in the words of the specification: the instance's ID equals the
identifier, or cloud-only is disabled and its node is present and named by the identifier. -/
def Matches (i : CloudInstance) (identifier : String) (cloudOnly : Bool) : Prop :=
  i.ID = identifier ∨ (cloudOnly = false ∧ ∃ n, i.Node = some n ∧ n.Name = identifier)

/-- The first match inside one group: `Ready` before `NeedUpdate`. -/
def firstInGroup (options : DeleteInstanceOptions) (group : CloudInstanceGroup) :
    Option CloudInstance :=
  (group.Ready.find? (fun r => deleteNodeMatch r options)).or
    (group.NeedUpdate.find? (fun r => deleteNodeMatch r options))

/-! ## `RunDeleteInstance` and its collaborators -/

/-- An opaque handle to an external object (client set, cluster, REST configuration, ...). -/
structure Handle where
  id : Nat
  deriving DecidableEq, Repr

abbrev Clientset := Handle
abbrev Cluster := Handle
abbrev RestConfig := Handle
abbrev HTTPClient := Handle
abbrev K8sClient := Handle
abbrev Cloud := Handle
abbrev ClusterValidator := Handle

/-- The fields of `instancegroups.RollingUpdateCluster` set by `RunDeleteInstance`. -/
structure RollingUpdateCluster where
  Clientset : Clientset
  Cluster : Cluster
  MasterInterval : Int
  NodeInterval : Int
  BastionInterval : Int
  Interactive : Bool
  Force : Bool
  Cloud : Cloud
  K8sClient : Option K8sClient
  FailOnDrainError : Bool
  FailOnValidate : Bool
  CloudOnly : Bool
  ClusterName : String
  PostDrainDelay : Int
  ValidationTimeout : Int
  ValidateCount : Int
  ValidateTickDuration : Int
  ValidateSuccessDuration : Int
  ClusterValidator : Option ClusterValidator
  deriving DecidableEq, Repr

/-- The calls `RunDeleteInstance` makes on its collaborators, with the arguments that matter. -/
inductive Call where
  | KopsClient
  | GetCluster (name : String)
  | RESTConfig
  | HTTPClient
  | NewForConfigAndClient
  | NodesList
  | InstanceGroupsList
  | BuildCloud
  | GetCloudGroups (nodes : List Node)
  | NewClusterValidator
  | UpdateSingleInstance (d : RollingUpdateCluster) (cloudMember : CloudInstance) (detach : Bool)
  deriving DecidableEq, Repr

/-- The answers of the collaborators: the factory, the kops client set, the Kubernetes API, the
cloud provider, the validator constructor and `RollingUpdateCluster.UpdateSingleInstance`.
`GetCloudGroups` answers with the group map in the order in which `findDeletionNode` will
range over it. -/
structure World where
  KopsClient : Except String Clientset
  GetCluster : String → Except String Cluster
  RESTConfig : Cluster → Except String RestConfig
  HTTPClient : RestConfig → Except String Kops.HTTPClient
  NewForConfigAndClient : RestConfig → Kops.HTTPClient → Except String K8sClient
  NodesList : K8sClient → Except String (Option (List Node))
  InstanceGroupsList : Clientset → Cluster → Except String (List InstanceGroup)
  BuildCloud : Cluster → Except String Cloud
  GetCloudGroups : Cloud → Cluster → List InstanceGroup → Bool → List Node → Except String Groups
  NewClusterValidator : Cluster → Cloud → List InstanceGroup → Option RestConfig →
    Option K8sClient → Except String ClusterValidator
  UpdateSingleInstance : RollingUpdateCluster → CloudInstance → Bool → Option String

/-- What one run of the command leaves behind: the returned error, the collaborator calls in
order, and what was written to `out` and to `os.Stderr`. -/
structure Outcome where
  err : Option String
  calls : List Call
  out : List String
  stderr : List String
  deriving DecidableEq, Repr

/-- Source `RunDeleteInstance`, lines 172-189: the Kubernetes client is built only when
`CloudOnly` is unset; otherwise `restConfig` and `k8sClient` stay nil. -/
def buildKubeClient (w : World) (options : DeleteInstanceOptions) (cluster : Cluster) :
    Except String (Option RestConfig × Option K8sClient) × List Call :=
  if !options.CloudOnly then
    match w.RESTConfig cluster with
    | .error err => (.error ("getting rest config: " ++ err), [.RESTConfig])
    | .ok restConfig =>
      match w.HTTPClient restConfig with
      | .error err => (.error ("getting http client: " ++ err), [.RESTConfig, .HTTPClient])
      | .ok httpClient =>
        match w.NewForConfigAndClient restConfig httpClient with
        | .error err =>
          (.error ("cannot build kube client: " ++ err),
            [.RESTConfig, .HTTPClient, .NewForConfigAndClient])
        | .ok k8sClient =>
          (.ok (some restConfig, some k8sClient),
            [.RESTConfig, .HTTPClient, .NewForConfigAndClient])
  else
    (.ok (none, none), [])

/-- Source `getNodes`: the result, the calls made and the lines written to `os.Stderr`.
A nil client would be a nil dereference; `RunDeleteInstance` never passes one. -/
def getNodes (w : World) (kubeClient : Option K8sClient) (verbose : Bool) :
    Except String (List Node) × List Call × List String :=
  match kubeClient with
  | none => (.error "invalid memory address or nil pointer dereference", [], [])
  | some client =>
    match w.NodesList client with
    | .error err =>
      (.error ("listing nodes in cluster: " ++ err), [.NodesList],
        if verbose then
          ["Unable to reach the kubernetes API.\n",
           "Use --cloudonly to do a deletion without confirming progress with the k8s API\n\n"]
        else [])
    | .ok nodeList =>
      match nodeList with
      | some items => (.ok items, [.NodesList], [])
      | none => (.ok [], [.NodesList], [])

/-- Source `RunDeleteInstance`, lines 191-197: nodes are listed only when `CloudOnly` is
unset; otherwise `nodes` stays the nil slice. -/
def listNodes (w : World) (options : DeleteInstanceOptions) (k8sClient : Option K8sClient) :
    Except String (List Node) × List Call × List String :=
  if !options.CloudOnly then getNodes w k8sClient true else (.ok [], [], [])

/-- The local variables of `RunDeleteInstance` once the inventory is built (line 217). -/
structure Prepared where
  clientSet : Clientset
  cluster : Cluster
  restConfig : Option RestConfig
  k8sClient : Option K8sClient
  list : List InstanceGroup
  cloud : Cloud
  groups : Groups

/-- Source `RunDeleteInstance`, lines 162-217: everything up to and including
`cloud.GetCloudGroups`. Returns the locals or the error returned early, together with the
calls made and the lines written to `os.Stderr`. -/
def prepare (w : World) (options : DeleteInstanceOptions) :
    Except String Prepared × List Call × List String :=
  match w.KopsClient with
  | .error err => (.error err, [.KopsClient], [])
  | .ok clientSet =>
  match w.GetCluster options.ClusterName with
  | .error err => (.error err, [.KopsClient, .GetCluster options.ClusterName], [])
  | .ok cluster =>
  match buildKubeClient w options cluster with
  | (.error err, c2) => (.error err, [.KopsClient, .GetCluster options.ClusterName] ++ c2, [])
  | (.ok (restConfig, k8sClient), c2) =>
  match listNodes w options k8sClient with
  | (.error err, c3, e3) =>
    (.error err, [.KopsClient, .GetCluster options.ClusterName] ++ c2 ++ c3, e3)
  | (.ok nodes, c3, e3) =>
  let calls := [.KopsClient, .GetCluster options.ClusterName] ++ c2 ++ c3
  match w.InstanceGroupsList clientSet cluster with
  | .error err => (.error err, calls ++ [.InstanceGroupsList], e3)
  | .ok list =>
  let instanceGroups := list
  match w.BuildCloud cluster with
  | .error err => (.error err, calls ++ [.InstanceGroupsList, .BuildCloud], e3)
  | .ok cloud =>
  match w.GetCloudGroups cloud cluster instanceGroups false nodes with
  | .error err =>
    (.error err, calls ++ [.InstanceGroupsList, .BuildCloud, .GetCloudGroups nodes], e3)
  | .ok groups =>
    (.ok ⟨clientSet, cluster, restConfig, k8sClient, list, cloud, groups⟩,
      calls ++ [.InstanceGroupsList, .BuildCloud, .GetCloudGroups nodes], e3)

/-- Source `RunDeleteInstance`, lines 237-273: the confirmation check, the assembly of the
`RollingUpdateCluster`, the validator (only when `CloudOnly` is unset) and the final call of
`UpdateSingleInstance`. `calls`, `out` and `stderr` are what the run has produced so far. -/
def confirmAndUpdate (w : World) (options : DeleteInstanceOptions) (p : Prepared)
    (cloudMember : CloudInstance) (calls : List Call) (out stderr : List String) : Outcome :=
  if !options.Yes then
    ⟨none, calls, out ++ ["\nMust specify --yes to delete instance\n"], stderr⟩
  else
    let d : RollingUpdateCluster :=
      { Clientset := p.clientSet
        Cluster := p.cluster
        MasterInterval := 0
        NodeInterval := 0
        BastionInterval := 0
        Interactive := false
        Force := true
        Cloud := p.cloud
        K8sClient := p.k8sClient
        FailOnDrainError := options.FailOnDrainError
        FailOnValidate := options.FailOnValidate
        CloudOnly := options.CloudOnly
        ClusterName := options.ClusterName
        PostDrainDelay := options.PostDrainDelay
        ValidationTimeout := options.ValidationTimeout
        ValidateCount := options.ValidateCount
        ValidateTickDuration := 30 * 1000000000
        ValidateSuccessDuration := 10 * 1000000000
        ClusterValidator := none }
    if !options.CloudOnly then
      match w.NewClusterValidator p.cluster p.cloud p.list p.restConfig p.k8sClient with
      | .error err =>
        ⟨some ("cannot create cluster validator: " ++ err), calls ++ [.NewClusterValidator],
          out, stderr⟩
      | .ok clusterValidator =>
        let d := { d with ClusterValidator := some clusterValidator }
        ⟨w.UpdateSingleInstance d cloudMember options.Surge,
          calls ++ [.NewClusterValidator, .UpdateSingleInstance d cloudMember options.Surge],
          out, stderr⟩
    else
      ⟨w.UpdateSingleInstance d cloudMember options.Surge,
        calls ++ [.UpdateSingleInstance d cloudMember options.Surge], out, stderr⟩

/-- Source `RunDeleteInstance`. -/
def RunDeleteInstance (w : World) (options : DeleteInstanceOptions) : Outcome :=
  match prepare w options with
  | (.error err, calls, stderr) => ⟨some err, calls, [], stderr⟩
  | (.ok p, calls, stderr) =>
    match findDeletionNode p.groups options with
    | none => ⟨some ("could not find instance " ++ options.InstanceID), calls, [], stderr⟩
    | some cloudMember =>
      if options.CloudOnly then
        confirmAndUpdate w options p cloudMember calls
          ["Instance " ++ cloudMember.ID ++ " found for deletion\n"] stderr
      else
        match cloudMember.Node with
        | some node =>
          confirmAndUpdate w options p cloudMember calls
            ["Instance " ++ cloudMember.ID ++ " (" ++ node.Name ++ ") found for deletion\n"]
            stderr
        | none =>
          ⟨some ("error finding node name for instance: " ++ cloudMember.ID), calls, [],
            stderr ++
              ["Instance is not a member of the cluster\n",
               "Use --cloudonly to do a deletion without confirming progress with the k8s API\n\n"]⟩

/-- Whether a call is the call of `UpdateSingleInstance`. -/
def Call.isUpdate : Call → Bool
  | .UpdateSingleInstance _ _ _ => true
  | _ => false

/-- The calls made while the inventory is built: every call but the construction of the
validator and `UpdateSingleInstance`. -/
def Call.isSetup : Call → Bool
  | .NewClusterValidator => false
  | .UpdateSingleInstance _ _ _ => false
  | _ => true

/-- The calls that build or use a Kubernetes client: the REST configuration, the HTTP client,
the client itself, the node listing and the construction of the cluster validator. -/
def Call.isKubernetes : Call → Bool
  | .RESTConfig => true
  | .HTTPClient => true
  | .NewForConfigAndClient => true
  | .NodesList => true
  | .NewClusterValidator => true
  | _ => false

/-- Whether a call, if it is `GetCloudGroups`, passes an empty node list. -/
def Call.nodesEmpty : Call → Bool
  | .GetCloudGroups nodes => nodes.isEmpty
  | _ => true

/-- Whether a call, if it is `UpdateSingleInstance`, passes a `RollingUpdateCluster` in
cloud-only mode with neither a Kubernetes client nor a cluster validator. -/
def Call.updateIsCloudOnly : Call → Bool
  | .UpdateSingleInstance d _ _ => d.CloudOnly && d.K8sClient.isNone && d.ClusterValidator.isNone
  | _ => true

/-- A world in which every collaborator succeeds: `GetCloudGroups` answers `groups` and
`UpdateSingleInstance` returns no error. -/
def World.allSucceed (groups : Groups) : World where
  KopsClient := .ok ⟨1⟩
  GetCluster := fun _ => .ok ⟨2⟩
  RESTConfig := fun _ => .ok ⟨3⟩
  HTTPClient := fun _ => .ok ⟨4⟩
  NewForConfigAndClient := fun _ _ => .ok ⟨5⟩
  NodesList := fun _ => .ok (some [⟨"ip-10-0-0-5.ec2.internal"⟩])
  InstanceGroupsList := fun _ _ => .ok [⟨"nodes"⟩]
  BuildCloud := fun _ => .ok ⟨6⟩
  GetCloudGroups := fun _ _ _ _ _ => .ok groups
  NewClusterValidator := fun _ _ _ _ _ => .ok ⟨7⟩
  UpdateSingleInstance := fun _ _ _ => none

/-- A group with a ready instance correlated to a node, and an instance that needs an update
and has not joined the cluster. -/
def exampleGroup : CloudInstanceGroup :=
  { InstanceGroup := some ⟨"nodes"⟩
    Ready := [⟨"i-0a5ed581b862d3425", some ⟨"ip-10-0-0-5.ec2.internal"⟩, some ⟨some ⟨"nodes"⟩⟩⟩]
    NeedUpdate := [⟨"i-0123456789abcdef0", none, some ⟨some ⟨"nodes"⟩⟩⟩] }

/-- An inventory of one group. -/
def exampleGroups : Groups :=
  [("nodes", exampleGroup)]

/-- Options as `initDefaults` leaves them, with the given target, mode and confirmation. -/
def exampleOptions (instanceID : String) (cloudOnly yes : Bool) : DeleteInstanceOptions :=
  { Yes := yes, CloudOnly := cloudOnly, FailOnDrainError := false, FailOnValidate := true,
    PostDrainDelay := 5000000000, ValidationTimeout := 900000000000, ValidateCount := 2,
    ClusterName := "example.k8s.local", InstanceID := instanceID, Surge := true }

/-! ## The replacement state machine -/

/-- The phases of the replacement state machine that issue a call on a collaborator or wait. -/
inductive Phase where
  | Surge
  | Detach
  | Drain
  | PostDrainDelay
  | Validate
  | Terminate
  deriving DecidableEq, Repr

/-- The errors the drain, validate and terminate calls answer with, if they are issued. -/
structure PhaseErrors where
  drain : Option String
  validate : Option String
  terminate : Option String

/-- Modelled from the spec: `RollingUpdateCluster.UpdateSingleInstance` lives in
`pkg/instancegroups`, which is not among the sources. Section 4.3 of the specification:
`Start → [Surge?] → Detach → Drain → PostDrainDelay → Validate → Terminate → Done`; in
cloud-only mode the machine goes `Start → Terminate → Done`; a drain or validate error aborts
when the matching policy is "fail" and is tolerated otherwise; a terminate error is always
returned. The result is the phases entered, in order, and the returned error. -/
def RollingUpdateCluster.UpdateSingleInstance (d : RollingUpdateCluster) (surge : Bool)
    (e : PhaseErrors) : List Phase × Option String :=
  if d.CloudOnly then
    ([.Terminate], e.terminate)
  else
    let start := (if surge then [Phase.Surge] else []) ++ [.Detach, .Drain]
    match e.drain, d.FailOnDrainError with
    | some err, true => (start, some err)
    | _, _ =>
      match e.validate, d.FailOnValidate with
      | some err, true => (start ++ [.PostDrainDelay, .Validate], some err)
      | _, _ => (start ++ [.PostDrainDelay, .Validate, .Terminate], e.terminate)

/-! ## The command and its flags -/

/-- The three values `initDefaults` copies from `RollingUpdateOptions` after `InitDefaults`
(defined in `rolling_update_cluster.go`, not among the sources). -/
structure RollingUpdateOptions where
  PostDrainDelay : Int
  ValidationTimeout : Int
  ValidateCount : Int
  deriving DecidableEq, Repr

/-- The zero value of `DeleteInstanceOptions` (`var options DeleteInstanceOptions`). -/
def DeleteInstanceOptions.zero : DeleteInstanceOptions :=
  { Yes := false, CloudOnly := false, FailOnDrainError := false, FailOnValidate := false,
    PostDrainDelay := 0, ValidationTimeout := 0, ValidateCount := 0, ClusterName := "",
    InstanceID := "", Surge := false }

/-- Source `DeleteInstanceOptions.initDefaults`; `d` is the `RollingUpdateOptions` after
`d.InitDefaults()`. -/
def DeleteInstanceOptions.initDefaults (o : DeleteInstanceOptions) (d : RollingUpdateOptions) :
    DeleteInstanceOptions :=
  let o := { o with CloudOnly := false }
  let o := { o with FailOnDrainError := false }
  let o := { o with FailOnValidate := true }
  let o := { o with PostDrainDelay := d.PostDrainDelay }
  let o := { o with ValidationTimeout := d.ValidationTimeout }
  let o := { o with ValidateCount := d.ValidateCount }
  { o with Surge := true }

/-- The default value recorded for a registered flag. -/
inductive FlagValue where
  | bool (b : Bool)
  | duration (d : Int)
  | int32 (n : Int)
  deriving DecidableEq, Repr

/-- A registered flag. -/
structure Flag where
  Name : String
  DefValue : FlagValue
  deriving DecidableEq, Repr

/-- The command under construction: the `options` variable the flags and closures point
into, and the flags registered so far. -/
structure Command where
  options : DeleteInstanceOptions
  flags : List Flag
  deriving DecidableEq, Repr

/-- The pflag call `FlagSet.BoolVar(p, name, value, usage)` (also `BoolVarP`): it stores
`value` in `*p` and registers the flag with default `value`. `set` writes the field `p`
points to. -/
def Command.BoolVar (cmd : Command) (set : DeleteInstanceOptions → Bool → DeleteInstanceOptions)
    (name : String) (value : Bool) : Command :=
  ⟨set cmd.options value, cmd.flags ++ [⟨name, .bool value⟩]⟩

/-- The pflag call `FlagSet.DurationVar(p, name, value, usage)`. -/
def Command.DurationVar (cmd : Command)
    (set : DeleteInstanceOptions → Int → DeleteInstanceOptions) (name : String) (value : Int) :
    Command :=
  ⟨set cmd.options value, cmd.flags ++ [⟨name, .duration value⟩]⟩

/-- The pflag call `FlagSet.Int32Var(p, name, value, usage)`. -/
def Command.Int32Var (cmd : Command)
    (set : DeleteInstanceOptions → Int → DeleteInstanceOptions) (name : String) (value : Int) :
    Command :=
  ⟨set cmd.options value, cmd.flags ++ [⟨name, .int32 value⟩]⟩

/-- Source `NewCmdDeleteInstance`, lines 113-158: `initDefaults`, then the flag registrations
in source order, each with the default expression written in the source. The flags of the
embedded `CreateKubecfgOptions` are left out. -/
def NewCmdDeleteInstance (d : RollingUpdateOptions) : Command :=
  let cmd : Command := ⟨DeleteInstanceOptions.zero.initDefaults d, []⟩
  let cmd := cmd.BoolVar (fun o v => { o with CloudOnly := v }) "cloudonly" cmd.options.CloudOnly
  let cmd := cmd.BoolVar (fun o v => { o with Surge := v }) "surge" cmd.options.Surge
  let cmd := cmd.DurationVar (fun o v => { o with ValidationTimeout := v }) "validation-timeout"
    cmd.options.ValidationTimeout
  let cmd := cmd.Int32Var (fun o v => { o with ValidateCount := v }) "validate-count"
    cmd.options.ValidateCount
  let cmd := cmd.DurationVar (fun o v => { o with PostDrainDelay := v }) "post-drain-delay"
    cmd.options.PostDrainDelay
  let cmd := cmd.BoolVar (fun o v => { o with FailOnDrainError := v }) "fail-on-drain-error" true
  let cmd := cmd.BoolVar (fun o v => { o with FailOnValidate := v }) "fail-on-validate-error" true
  cmd.BoolVar (fun o v => { o with Yes := v }) "yes" cmd.options.Yes

/-- Source `NewCmdDeleteInstance`, the `Args` closure (lines 121-137); `clusterName` is the
answer of `rootCommand.ClusterName(true)`. Returns the error and the options as the closure
leaves them. -/
def Command.Args (cmd : Command) (clusterName : String) (args : List String) :
    Option String × DeleteInstanceOptions :=
  let options := { cmd.options with ClusterName := clusterName }
  if options.ClusterName == "" then
    (some "--name is required", options)
  else
    match args with
    | [] => (some "must specify ID of instance or name of node to delete", options)
    | arg0 :: rest =>
      let options := { options with InstanceID := arg0 }
      if rest.length + 1 != 1 then
        (some "can only delete one instance at a time", options)
      else
        (none, options)

/-- The options `RunE` hands to `RunDeleteInstance` when the command line carries the
positional arguments `args` and no flag: no flag value is set after registration, `Args` runs,
and `RunE` runs only if `Args` returned no error. -/
def optionsHandedToRun (d : RollingUpdateOptions) (clusterName : String) (args : List String) :
    Option DeleteInstanceOptions :=
  match (NewCmdDeleteInstance d).Args clusterName args with
  | (none, options) => some options
  | (some _, _) => none

/-! ## The completion formatter -/

/-- Go `len` on a string: its length in bytes. -/
def len (s : String) : Nat :=
  s.utf8ByteSize

/-- Go `strings.Repeat(s, count)`; a negative `count` panics (`none`). -/
def stringsRepeat (s : String) (count : Int) : Option String :=
  if count < 0 then none else some (String.join (List.replicate count.toNat s))

/-- Source `appendInstance`; `none` is a panic (a nil `CloudInstanceGroup` back-reference or a
negative repeat count). -/
def appendInstance (completions : List String) (inst : CloudInstance) (longestGroup : Int) :
    Option (List String) :=
  let completion := inst.ID
  match inst.CloudInstanceGroup with
  | none => none
  | some cloudInstanceGroup =>
    match cloudInstanceGroup.InstanceGroup with
    | none => some (completions ++ [completion])
    | some instanceGroup =>
      let completion := completion ++ "\t" ++ instanceGroup.Name
      match inst.Node with
      | none => some (completions ++ [completion])
      | some node =>
        match stringsRepeat " " (longestGroup + 1 - len instanceGroup.Name) with
        | none => none
        | some padding =>
          let completion := completion ++ padding ++ node.Name
          let completions :=
            completions ++ [node.Name ++ "\t" ++ instanceGroup.Name ++ padding ++ inst.ID]
          some (completions ++ [completion])

/-- Source `completeInstanceOrNode`, lines 370-375: the longest `InstanceGroup.Name` among the
groups whose `InstanceGroup` is non-nil. -/
def longestGroup (groups : Groups) : Int :=
  groups.foldl
    (fun longestGroup e =>
      match e.2.InstanceGroup with
      | some instanceGroup =>
        if longestGroup < (len instanceGroup.Name : Int) then (len instanceGroup.Name : Int)
        else longestGroup
      | none => longestGroup)
    0

/-- Source `completeInstanceOrNode`, lines 369-383: the completions of all instances, group by
group, `Ready` before `NeedUpdate`. -/
def completions (groups : Groups) : Option (List String) :=
  groups.foldlM
    (fun acc e => do
      let acc ← e.2.Ready.foldlM (fun acc inst => appendInstance acc inst (longestGroup groups)) acc
      e.2.NeedUpdate.foldlM (fun acc inst => appendInstance acc inst (longestGroup groups)) acc)
    []

/-- Every instance points back to the group that lists it. -/
def BackReferencesOK (groups : Groups) : Prop :=
  ∀ e ∈ groups,
    (∀ inst ∈ e.2.Ready, inst.CloudInstanceGroup = some e.2.ref) ∧
    (∀ inst ∈ e.2.NeedUpdate, inst.CloudInstanceGroup = some e.2.ref)

end Kops

/-! # Theorems -/

namespace Kops

/-! ### Lemmas on the matcher -/

theorem deleteNodeMatch_iff (i : CloudInstance) (options : DeleteInstanceOptions) :
    deleteNodeMatch i options = true ↔ Matches i options.InstanceID options.CloudOnly := by
  unfold deleteNodeMatch Matches
  cases hn : i.Node <;> cases hc : options.CloudOnly <;> simp

theorem findDeletionNode_eq_findSome (groups : Groups) (options : DeleteInstanceOptions) :
    findDeletionNode groups options = groups.findSome? (fun e => firstInGroup options e.2) := by
  induction groups with
  | nil => rfl
  | cons e rest ih =>
    obtain ⟨k, g⟩ := e
    simp only [findDeletionNode, List.findSome?_cons, firstInGroup]
    cases h1 : g.Ready.find? (fun r => deleteNodeMatch r options) with
    | some r => simp
    | none =>
      cases h2 : g.NeedUpdate.find? (fun r => deleteNodeMatch r options) with
      | some r => simp
      | none => simpa using ih

theorem firstInGroup_eq_none (options : DeleteInstanceOptions) (g : CloudInstanceGroup) :
    firstInGroup options g = none ↔
      ∀ i, (i ∈ g.Ready ∨ i ∈ g.NeedUpdate) → deleteNodeMatch i options = false := by
  unfold firstInGroup
  rw [← List.find?_append, List.find?_eq_none]
  simp [List.mem_append]

theorem firstInGroup_some (options : DeleteInstanceOptions) (g : CloudInstanceGroup)
    (r : CloudInstance) (h : firstInGroup options g = some r) :
    (r ∈ g.Ready ∨ r ∈ g.NeedUpdate) ∧ deleteNodeMatch r options = true := by
  unfold firstInGroup at h
  rw [← List.find?_append] at h
  have hm := List.mem_of_find?_eq_some h
  have hp := List.find?_some h
  exact ⟨List.mem_append.mp hm, hp⟩

theorem find?_of_first_index {α : Type} (p : α → Bool) (l : List α) (i : Nat) (r : α)
    (hi : l[i]? = some r) (hr : p r = true) (hlt : ∀ x ∈ l.take i, p x = false) :
    l.find? p = some r := by
  induction l generalizing i with
  | nil => simp at hi
  | cons a t ih =>
    cases i with
    | zero =>
      simp at hi
      subst hi
      simp [List.find?_cons, hr]
    | succ j =>
      have ha : p a = false := hlt a (by simp)
      simp only [List.find?_cons, ha]
      apply ih j
      · simpa using hi
      · intro x hx
        exact hlt x (by simp [hx])

/-! ### The matcher: what it returns -/

/-- C1: `findDeletionNode` returns nil exactly when no instance in any group's `Ready` or
`NeedUpdate` list matches; an instance it returns is an element of some group's `Ready` or
`NeedUpdate` list and matches; with cloud-only set, the returned instance's ID is the
identifier, so an instance matching only through its node name is never returned. -/
theorem findDeletionNode_spec (groups : Groups) (options : DeleteInstanceOptions) :
    (findDeletionNode groups options = none ↔
      ∀ e ∈ groups, ∀ i, (i ∈ e.2.Ready ∨ i ∈ e.2.NeedUpdate) →
        ¬ Matches i options.InstanceID options.CloudOnly) ∧
    (∀ r, findDeletionNode groups options = some r →
      (∃ e ∈ groups, r ∈ e.2.Ready ∨ r ∈ e.2.NeedUpdate) ∧
        Matches r options.InstanceID options.CloudOnly) ∧
    (options.CloudOnly = true →
      ∀ r, findDeletionNode groups options = some r → r.ID = options.InstanceID) := by
  have hsome : ∀ r, findDeletionNode groups options = some r →
      (∃ e ∈ groups, r ∈ e.2.Ready ∨ r ∈ e.2.NeedUpdate) ∧
        Matches r options.InstanceID options.CloudOnly := by
    intro r hr
    rw [findDeletionNode_eq_findSome] at hr
    obtain ⟨e, he, hfe⟩ := List.exists_of_findSome?_eq_some hr
    obtain ⟨hmem, hmatch⟩ := firstInGroup_some options e.2 r hfe
    exact ⟨⟨e, he, hmem⟩, (deleteNodeMatch_iff r options).mp hmatch⟩
  refine ⟨?_, hsome, ?_⟩
  · rw [findDeletionNode_eq_findSome, List.findSome?_eq_none_iff]
    constructor
    · intro h e he i hi hm
      have h1 := (firstInGroup_eq_none options e.2).mp (h e he) i hi
      rw [(deleteNodeMatch_iff i options).mpr hm] at h1
      exact Bool.noConfusion h1
    · intro h e he
      rw [firstInGroup_eq_none]
      intro i hi
      cases hd : deleteNodeMatch i options with
      | false => rfl
      | true => exact absurd ((deleteNodeMatch_iff i options).mp hd) (h e he i hi)
  · intro hc r hr
    rcases (hsome r hr).2 with h | ⟨h, _⟩
    · exact h
    · rw [hc] at h
      exact Bool.noConfusion h

/-- C3: for an inventory of a single group, a `Ready` instance that matches and has no
matching `Ready` instance before it is returned, whatever `NeedUpdate` holds; when no `Ready`
instance matches, a matching `NeedUpdate` instance with no matching `NeedUpdate` instance
before it is returned. -/
theorem findDeletionNode_single_group (key : String) (group : CloudInstanceGroup)
    (options : DeleteInstanceOptions) :
    (∀ i r, group.Ready[i]? = some r → deleteNodeMatch r options = true →
      (∀ x ∈ group.Ready.take i, deleteNodeMatch x options = false) →
      findDeletionNode [(key, group)] options = some r) ∧
    ((∀ x ∈ group.Ready, deleteNodeMatch x options = false) →
      ∀ i r, group.NeedUpdate[i]? = some r → deleteNodeMatch r options = true →
        (∀ x ∈ group.NeedUpdate.take i, deleteNodeMatch x options = false) →
        findDeletionNode [(key, group)] options = some r) := by
  constructor
  · intro i r hi hr hlt
    have h := find?_of_first_index (fun r => deleteNodeMatch r options) group.Ready i r hi hr hlt
    simp [findDeletionNode, h]
  · intro hnone i r hi hr hlt
    have h1 : group.Ready.find? (fun r => deleteNodeMatch r options) = none := by
      rw [List.find?_eq_none]
      intro x hx
      simp [hnone x hx]
    have h2 :=
      find?_of_first_index (fun r => deleteNodeMatch r options) group.NeedUpdate i r hi hr hlt
    simp [findDeletionNode, h1, h2]

/-- C3, at a group whose second `Ready` instance matches by node name while a `NeedUpdate`
instance matches by ID: the `Ready` instance is returned. -/
theorem findDeletionNode_single_group_witness :
    findDeletionNode
        [("nodes", ⟨none, [⟨"i-1", none, none⟩, ⟨"i-2", some ⟨"n"⟩, none⟩], [⟨"n", none, none⟩]⟩)]
        ⟨true, false, false, true, 0, 0, 0, "c", "n", true⟩
      = some ⟨"i-2", some ⟨"n"⟩, none⟩ :=
  (findDeletionNode_single_group "nodes"
      ⟨none, [⟨"i-1", none, none⟩, ⟨"i-2", some ⟨"n"⟩, none⟩], [⟨"n", none, none⟩]⟩
      ⟨true, false, false, true, 0, 0, 0, "c", "n", true⟩).1 1 ⟨"i-2", some ⟨"n"⟩, none⟩
    (by decide) (by decide) (by decide)

/-- C4 as stated fails: the same two groups visited in the two possible orders give
different instances when one matches by ID and the other by a node name equal to that ID. -/
theorem findDeletionNode_order_dependent :
    List.Perm
        [("a", (⟨none, [⟨"i-1", none, none⟩], []⟩ : CloudInstanceGroup)),
         ("b", ⟨none, [⟨"i-2", some ⟨"i-1"⟩, none⟩], []⟩)]
        [("b", ⟨none, [⟨"i-2", some ⟨"i-1"⟩, none⟩], []⟩),
         ("a", ⟨none, [⟨"i-1", none, none⟩], []⟩)] ∧
      findDeletionNode
          [("a", ⟨none, [⟨"i-1", none, none⟩], []⟩),
           ("b", ⟨none, [⟨"i-2", some ⟨"i-1"⟩, none⟩], []⟩)]
          ⟨true, false, false, true, 0, 0, 0, "c", "i-1", true⟩ ≠
        findDeletionNode
          [("b", ⟨none, [⟨"i-2", some ⟨"i-1"⟩, none⟩], []⟩),
           ("a", ⟨none, [⟨"i-1", none, none⟩], []⟩)]
          ⟨true, false, false, true, 0, 0, 0, "c", "i-1", true⟩ :=
  ⟨List.Perm.swap _ _ _, by decide⟩

/-- C4, amended: two visit orders of the same group map give the same result whenever the
groups that contain a match all have the same first match, in particular when at most one
group contains a match. -/
theorem findDeletionNode_perm (groups₁ groups₂ : Groups) (options : DeleteInstanceOptions)
    (hperm : groups₁.Perm groups₂)
    (huniq : ∀ e₁ ∈ groups₁, ∀ e₂ ∈ groups₁,
      (firstInGroup options e₁.2).isSome = true → (firstInGroup options e₂.2).isSome = true →
        firstInGroup options e₁.2 = firstInGroup options e₂.2) :
    findDeletionNode groups₁ options = findDeletionNode groups₂ options := by
  rw [findDeletionNode_eq_findSome, findDeletionNode_eq_findSome]
  cases h1 : groups₁.findSome? (fun e => firstInGroup options e.2) with
  | none =>
    rw [List.findSome?_eq_none_iff] at h1
    symm
    rw [List.findSome?_eq_none_iff]
    intro e he
    exact h1 e (hperm.mem_iff.mpr he)
  | some r₁ =>
    obtain ⟨e₁, he₁, hf₁⟩ := List.exists_of_findSome?_eq_some h1
    cases h2 : groups₂.findSome? (fun e => firstInGroup options e.2) with
    | none =>
      rw [List.findSome?_eq_none_iff] at h2
      have := h2 e₁ (hperm.mem_iff.mp he₁)
      simp [hf₁] at this
    | some r₂ =>
      obtain ⟨e₂, he₂, hf₂⟩ := List.exists_of_findSome?_eq_some h2
      have h := huniq e₁ he₁ e₂ (hperm.mem_iff.mpr he₂) (by simp [hf₁]) (by simp [hf₂])
      rw [hf₁, hf₂] at h
      exact h

/-- C4, amended, at two groups of which only one contains a match. -/
theorem findDeletionNode_perm_witness :
    findDeletionNode
        [("a", ⟨none, [⟨"i-1", none, none⟩], []⟩), ("b", ⟨none, [⟨"i-2", none, none⟩], []⟩)]
        ⟨true, false, false, true, 0, 0, 0, "c", "i-1", true⟩ =
      findDeletionNode
        [("b", ⟨none, [⟨"i-2", none, none⟩], []⟩), ("a", ⟨none, [⟨"i-1", none, none⟩], []⟩)]
        ⟨true, false, false, true, 0, 0, 0, "c", "i-1", true⟩ :=
  findDeletionNode_perm _ _ _ (List.Perm.swap _ _ _) (by decide)

/-! ### `RunDeleteInstance` -/

theorem buildKubeClient_setup (w : World) (options : DeleteInstanceOptions) (cluster : Cluster) :
    (buildKubeClient w options cluster).2.all Call.isSetup = true := by
  unfold buildKubeClient
  repeat' split
  all_goals simp [Call.isSetup]

theorem buildKubeClient_cloudOnly (w : World) (options : DeleteInstanceOptions)
    (cluster : Cluster) (h : options.CloudOnly = true) :
    buildKubeClient w options cluster = (.ok (none, none), []) := by
  simp [buildKubeClient, h]

theorem listNodes_setup (w : World) (options : DeleteInstanceOptions)
    (k8sClient : Option K8sClient) :
    (listNodes w options k8sClient).2.1.all Call.isSetup = true := by
  unfold listNodes getNodes
  repeat' split
  all_goals simp [Call.isSetup]

theorem listNodes_cloudOnly (w : World) (options : DeleteInstanceOptions)
    (k8sClient : Option K8sClient) (h : options.CloudOnly = true) :
    listNodes w options k8sClient = (.ok [], [], []) := by
  simp [listNodes, h]

/-- The calls made while the inventory is built are set-up calls. -/
theorem prepare_setup (w : World) (options : DeleteInstanceOptions) :
    (prepare w options).2.1.all Call.isSetup = true := by
  unfold prepare
  cases w.KopsClient with
  | error err => simp [Call.isSetup]
  | ok clientSet =>
  dsimp only
  cases w.GetCluster options.ClusterName with
  | error err => simp [Call.isSetup]
  | ok cluster =>
  dsimp only
  have hb := buildKubeClient_setup w options cluster
  generalize buildKubeClient w options cluster = b at hb ⊢
  rcases b with ⟨_ | ⟨restConfig, k8sClient⟩, c2⟩
  · simpa [Call.isSetup] using hb
  dsimp only
  have hl := listNodes_setup w options k8sClient
  generalize listNodes w options k8sClient = l at hl ⊢
  rcases l with ⟨_ | nodes, c3, e3⟩
  · simp only [List.all_append] at hb hl ⊢
    simp [Call.isSetup, hb, hl]
  dsimp only
  cases w.InstanceGroupsList clientSet cluster with
  | error err =>
    simp only [List.all_append] at hb hl ⊢
    simp [Call.isSetup, hb, hl]
  | ok list =>
  dsimp only
  cases w.BuildCloud cluster with
  | error err =>
    simp only [List.all_append] at hb hl ⊢
    simp [Call.isSetup, hb, hl]
  | ok cloud =>
  dsimp only
  cases w.GetCloudGroups cloud cluster list false nodes with
  | error err =>
    simp only [List.all_append] at hb hl ⊢
    simp [Call.isSetup, hb, hl]
  | ok groups =>
    simp only [List.all_append] at hb hl ⊢
    simp [Call.isSetup, hb, hl]

/-- In cloud-only mode nothing that is built before the match touches Kubernetes, the
inventory is requested with an empty node list, and the locals `restConfig` and `k8sClient`
stay nil. -/
theorem prepare_cloudOnly (w : World) (options : DeleteInstanceOptions)
    (h : options.CloudOnly = true) :
    (prepare w options).2.1.all (fun c => !c.isKubernetes && c.nodesEmpty) = true ∧
      ∀ p, (prepare w options).1 = .ok p → p.restConfig = none ∧ p.k8sClient = none := by
  unfold prepare
  cases w.KopsClient with
  | error err => simp [Call.isKubernetes, Call.nodesEmpty]
  | ok clientSet =>
  dsimp only
  cases w.GetCluster options.ClusterName with
  | error err => simp [Call.isKubernetes, Call.nodesEmpty]
  | ok cluster =>
  dsimp only
  simp only [buildKubeClient_cloudOnly w options cluster h, listNodes_cloudOnly w options _ h]
  cases w.InstanceGroupsList clientSet cluster with
  | error err => simp [Call.isKubernetes, Call.nodesEmpty]
  | ok list =>
  dsimp only
  cases w.BuildCloud cluster with
  | error err => simp [Call.isKubernetes, Call.nodesEmpty]
  | ok cloud =>
  dsimp only
  cases w.GetCloudGroups cloud cluster list false [] with
  | error err => simp [Call.isKubernetes, Call.nodesEmpty]
  | ok groups => simp [Call.isKubernetes, Call.nodesEmpty]

theorem isUpdate_of_isSetup (c : Call) (h : c.isSetup = true) :
    c.isUpdate = false ∧ c ≠ Call.NewClusterValidator := by
  cases c <;> simp_all [Call.isSetup, Call.isUpdate]

theorem confirmAndUpdate_unconfirmed (w : World) (options : DeleteInstanceOptions) (p : Prepared)
    (cloudMember : CloudInstance) (calls : List Call) (out stderr : List String)
    (hyes : options.Yes = false) :
    confirmAndUpdate w options p cloudMember calls out stderr =
      ⟨none, calls, out ++ ["\nMust specify --yes to delete instance\n"], stderr⟩ := by
  simp [confirmAndUpdate, hyes]

/-- Without `--yes` the run makes no call beyond those that build the inventory. -/
theorem RunDeleteInstance_calls_unconfirmed (w : World) (options : DeleteInstanceOptions)
    (hyes : options.Yes = false) :
    (RunDeleteInstance w options).calls = (prepare w options).2.1 := by
  unfold RunDeleteInstance
  generalize prepare w options = r
  rcases r with ⟨_ | p, calls, stderr⟩
  · rfl
  dsimp only
  cases findDeletionNode p.groups options with
  | none => rfl
  | some cloudMember =>
    dsimp only
    cases hco : options.CloudOnly with
    | true => simp [confirmAndUpdate_unconfirmed, hyes]
    | false =>
      cases cloudMember.Node with
      | none => simp
      | some node => simp [confirmAndUpdate_unconfirmed, hyes]

/-- C2: once the inventory is built, an identifier that matches no instance of it makes
`RunDeleteInstance` return the error "could not find instance <identifier>", whatever the
confirmation flag and the other options are; the run makes no call beyond those that built
the inventory, and `UpdateSingleInstance` is not among them. -/
theorem RunDeleteInstance_not_found (w : World) (options : DeleteInstanceOptions)
    (p : Prepared) (calls : List Call) (stderr : List String)
    (hprep : prepare w options = (.ok p, calls, stderr))
    (hno : ∀ e ∈ p.groups, ∀ i, (i ∈ e.2.Ready ∨ i ∈ e.2.NeedUpdate) →
      ¬ Matches i options.InstanceID options.CloudOnly) :
    (RunDeleteInstance w options).err = some ("could not find instance " ++ options.InstanceID) ∧
      (RunDeleteInstance w options).calls = calls ∧
      ∀ c ∈ (RunDeleteInstance w options).calls, c.isUpdate = false := by
  have hfind : findDeletionNode p.groups options = none := by
    rw [findDeletionNode_eq_findSome, List.findSome?_eq_none_iff]
    intro e he
    rw [firstInGroup_eq_none]
    intro i hi
    cases hd : deleteNodeMatch i options with
    | false => rfl
    | true => exact absurd ((deleteNodeMatch_iff i options).mp hd) (hno e he i hi)
  have hsetup := prepare_setup w options
  rw [hprep] at hsetup
  have hrun : RunDeleteInstance w options =
      ⟨some ("could not find instance " ++ options.InstanceID), calls, [], stderr⟩ := by
    simp [RunDeleteInstance, hprep, hfind]
  rw [hrun]
  refine ⟨rfl, rfl, ?_⟩
  intro c hc
  exact (isUpdate_of_isSetup c (List.all_eq_true.mp hsetup c hc)).1

/-- C2, at an identifier absent from the example inventory, with `--yes` given. -/
theorem RunDeleteInstance_not_found_witness :
    (RunDeleteInstance (World.allSucceed exampleGroups)
        (exampleOptions "i-0000" false true)).err = some "could not find instance i-0000" :=
  (RunDeleteInstance_not_found (World.allSucceed exampleGroups)
      (exampleOptions "i-0000" false true) _ _ _ rfl
      (by
        intro e he i hi
        simp [exampleGroups] at he
        subst he
        simp [exampleGroup] at hi
        rcases hi with h | h <;> subst h <;> simp [Matches, exampleOptions])).1

/-- C5: in cluster-aware mode, when the matched instance has no correlated node,
`RunDeleteInstance` returns the error "error finding node name for instance: <cloud ID>",
whatever the confirmation flag is; the run makes no call beyond those that built the
inventory, and `UpdateSingleInstance` is not among them. -/
theorem RunDeleteInstance_not_cluster_member (w : World) (options : DeleteInstanceOptions)
    (p : Prepared) (calls : List Call) (stderr : List String) (cloudMember : CloudInstance)
    (hprep : prepare w options = (.ok p, calls, stderr))
    (hmode : options.CloudOnly = false)
    (hfind : findDeletionNode p.groups options = some cloudMember)
    (hnode : cloudMember.Node = none) :
    (RunDeleteInstance w options).err =
        some ("error finding node name for instance: " ++ cloudMember.ID) ∧
      (RunDeleteInstance w options).calls = calls ∧
      ∀ c ∈ (RunDeleteInstance w options).calls, c.isUpdate = false := by
  have hsetup := prepare_setup w options
  rw [hprep] at hsetup
  have hrun : RunDeleteInstance w options =
      ⟨some ("error finding node name for instance: " ++ cloudMember.ID), calls, [],
        stderr ++
          ["Instance is not a member of the cluster\n",
           "Use --cloudonly to do a deletion without confirming progress with the k8s API\n\n"]⟩ := by
    simp [RunDeleteInstance, hprep, hfind, hmode, hnode]
  rw [hrun]
  refine ⟨rfl, rfl, ?_⟩
  intro c hc
  exact (isUpdate_of_isSetup c (List.all_eq_true.mp hsetup c hc)).1

/-- C5, at the instance of the example inventory that has not joined the cluster, without
`--yes`: the run fails rather than returning success. -/
theorem RunDeleteInstance_not_cluster_member_witness :
    (RunDeleteInstance (World.allSucceed exampleGroups)
        (exampleOptions "i-0123456789abcdef0" false false)).err =
      some "error finding node name for instance: i-0123456789abcdef0" :=
  (RunDeleteInstance_not_cluster_member (World.allSucceed exampleGroups)
      (exampleOptions "i-0123456789abcdef0" false false) _ _ _
      ⟨"i-0123456789abcdef0", none, some ⟨some ⟨"nodes"⟩⟩⟩ rfl rfl (by decide) rfl).1

/-- C6: with the confirmation flag unset, a run whose match is valid (cloud-only mode, or a
match with a correlated node) returns the nil error and makes no call beyond those that built
the inventory; and no run with the flag unset calls `UpdateSingleInstance` or constructs a
cluster validator, so `UpdateSingleInstance` is called only when `Yes` is true. -/
theorem RunDeleteInstance_unconfirmed (w : World) (options : DeleteInstanceOptions)
    (hyes : options.Yes = false) :
    (∀ p calls stderr cloudMember,
      prepare w options = (.ok p, calls, stderr) →
      findDeletionNode p.groups options = some cloudMember →
      (options.CloudOnly = true ∨ cloudMember.Node.isSome = true) →
      (RunDeleteInstance w options).err = none ∧ (RunDeleteInstance w options).calls = calls) ∧
    (∀ c ∈ (RunDeleteInstance w options).calls,
      c.isUpdate = false ∧ c ≠ Call.NewClusterValidator) := by
  constructor
  · intro p calls stderr cloudMember hprep hfind hvalid
    refine ⟨?_, ?_⟩
    · cases hco : options.CloudOnly with
      | true => simp [RunDeleteInstance, hprep, hfind, hco, confirmAndUpdate_unconfirmed, hyes]
      | false =>
        rcases hvalid with h | h
        · rw [hco] at h
          exact Bool.noConfusion h
        · obtain ⟨node, hnode⟩ := Option.isSome_iff_exists.mp h
          simp [RunDeleteInstance, hprep, hfind, hco, hnode, confirmAndUpdate_unconfirmed, hyes]
    · rw [RunDeleteInstance_calls_unconfirmed w options hyes, hprep]
  · intro c hc
    rw [RunDeleteInstance_calls_unconfirmed w options hyes] at hc
    exact isUpdate_of_isSetup c (List.all_eq_true.mp (prepare_setup w options) c hc)

/-- C6, at the correlated instance of the example inventory addressed by its node name,
without `--yes`: success. -/
theorem RunDeleteInstance_unconfirmed_witness :
    (RunDeleteInstance (World.allSucceed exampleGroups)
        (exampleOptions "ip-10-0-0-5.ec2.internal" false false)).err = none :=
  ((RunDeleteInstance_unconfirmed (World.allSucceed exampleGroups)
      (exampleOptions "ip-10-0-0-5.ec2.internal" false false) rfl).1 _ _ _
      ⟨"i-0a5ed581b862d3425", some ⟨"ip-10-0-0-5.ec2.internal"⟩, some ⟨some ⟨"nodes"⟩⟩⟩
      rfl (by decide) (Or.inr rfl)).1

theorem cloudOnly_of_isSetup (c : Call) (h : c.isSetup = true) : c.updateIsCloudOnly = true := by
  cases c <;> simp_all [Call.isSetup, Call.updateIsCloudOnly]

/-- In cloud-only mode every call of a run is free of Kubernetes, passes no node to
`GetCloudGroups`, and hands `UpdateSingleInstance` a cloud-only `RollingUpdateCluster` without
client and validator. -/
theorem RunDeleteInstance_calls_cloudOnly (w : World) (options : DeleteInstanceOptions)
    (hco : options.CloudOnly = true) :
    ∀ c ∈ (RunDeleteInstance w options).calls,
      c.isKubernetes = false ∧ c.nodesEmpty = true ∧ c.updateIsCloudOnly = true := by
  have hprep := prepare_cloudOnly w options hco
  have hsetup := prepare_setup w options
  have hbase : ∀ c ∈ (prepare w options).2.1,
      c.isKubernetes = false ∧ c.nodesEmpty = true ∧ c.updateIsCloudOnly = true := by
    intro c hc
    have h1 := List.all_eq_true.mp hprep.1 c hc
    have h2 := List.all_eq_true.mp hsetup c hc
    simp only [Bool.and_eq_true, Bool.not_eq_true'] at h1
    exact ⟨h1.1, h1.2, cloudOnly_of_isSetup c h2⟩
  have hnil := hprep.2
  clear hprep hsetup
  unfold RunDeleteInstance
  generalize prepare w options = r at hbase hnil
  rcases r with ⟨_ | p, calls, stderr⟩
  · exact hbase
  dsimp only
  obtain ⟨hrc, hkc⟩ := hnil p rfl
  cases findDeletionNode p.groups options with
  | none => exact hbase
  | some cloudMember =>
    dsimp only
    rw [if_pos hco]
    unfold confirmAndUpdate
    cases hyes : options.Yes with
    | false => simpa using hbase
    | true =>
      intro c hc
      simp [hco] at hc
      rcases hc with hc | hc
      · exact hbase c hc
      · subst hc
        simp [Call.isKubernetes, Call.nodesEmpty, Call.updateIsCloudOnly, hkc]

/-- C7: in cloud-only mode `RunDeleteInstance` requests no REST configuration, HTTP client or
Kubernetes client, lists no nodes and constructs no cluster validator; every `GetCloudGroups`
call passes the empty node list; every `RollingUpdateCluster` handed to
`UpdateSingleInstance` has `CloudOnly` set and `K8sClient` and `ClusterValidator` nil; and the
replacement state machine run on it enters neither Drain nor Validate, whatever the
failure-policy flags and the errors the collaborators would answer with. -/
theorem RunDeleteInstance_cloudOnly (w : World) (options : DeleteInstanceOptions)
    (hco : options.CloudOnly = true) :
    Call.RESTConfig ∉ (RunDeleteInstance w options).calls ∧
    Call.HTTPClient ∉ (RunDeleteInstance w options).calls ∧
    Call.NewForConfigAndClient ∉ (RunDeleteInstance w options).calls ∧
    Call.NodesList ∉ (RunDeleteInstance w options).calls ∧
    Call.NewClusterValidator ∉ (RunDeleteInstance w options).calls ∧
    (∀ nodes, Call.GetCloudGroups nodes ∈ (RunDeleteInstance w options).calls → nodes = []) ∧
    (∀ d cloudMember surge,
      Call.UpdateSingleInstance d cloudMember surge ∈ (RunDeleteInstance w options).calls →
        d.CloudOnly = true ∧ d.K8sClient = none ∧ d.ClusterValidator = none ∧
        ∀ e, Phase.Drain ∉ (d.UpdateSingleInstance surge e).1 ∧
          Phase.Validate ∉ (d.UpdateSingleInstance surge e).1) := by
  have h := RunDeleteInstance_calls_cloudOnly w options hco
  refine ⟨?_, ?_, ?_, ?_, ?_, ?_, ?_⟩
  · intro hc; simpa [Call.isKubernetes] using (h _ hc).1
  · intro hc; simpa [Call.isKubernetes] using (h _ hc).1
  · intro hc; simpa [Call.isKubernetes] using (h _ hc).1
  · intro hc; simpa [Call.isKubernetes] using (h _ hc).1
  · intro hc; simpa [Call.isKubernetes] using (h _ hc).1
  · intro nodes hc
    simpa [Call.nodesEmpty] using (h _ hc).2.1
  · intro d cloudMember surge hc
    have hd := (h _ hc).2.2
    simp only [Call.updateIsCloudOnly, Bool.and_eq_true, Option.isNone_iff_eq_none] at hd
    refine ⟨hd.1.1, hd.1.2, hd.2, ?_⟩
    intro e
    simp [RollingUpdateCluster.UpdateSingleInstance, hd.1.1]

/-- C7, at a confirmed cloud-only deletion in the example inventory with both failure
policies set to "fail": the run does call `UpdateSingleInstance`, and lists no nodes. -/
theorem RunDeleteInstance_cloudOnly_witness :
    (RunDeleteInstance (World.allSucceed exampleGroups)
        { exampleOptions "i-0a5ed581b862d3425" true true with FailOnDrainError := true }).calls.any
        Call.isUpdate = true ∧
      Call.NodesList ∉ (RunDeleteInstance (World.allSucceed exampleGroups)
        { exampleOptions "i-0a5ed581b862d3425" true true with FailOnDrainError := true }).calls :=
  ⟨by decide,
    (RunDeleteInstance_cloudOnly (World.allSucceed exampleGroups)
      { exampleOptions "i-0a5ed581b862d3425" true true with FailOnDrainError := true } rfl).2.2.2.1⟩

/-! ### The command's flags -/

/-- C9, evaluated on the code: `initDefaults` assigns `FailOnDrainError = false`, but the
registration of `fail-on-drain-error` with the literal default `true` overwrites the field, so
the options handed to `RunDeleteInstance` when no flag is passed hold
`FailOnDrainError = true`; `CloudOnly`, `Surge` and `FailOnValidate` keep the values of
`initDefaults`. -/
theorem NewCmdDeleteInstance_FailOnDrainError (d : RollingUpdateOptions) :
    (DeleteInstanceOptions.zero.initDefaults d).FailOnDrainError = false ∧
    (NewCmdDeleteInstance d).options.FailOnDrainError = true ∧
    ⟨"fail-on-drain-error", .bool true⟩ ∈ (NewCmdDeleteInstance d).flags ∧
    optionsHandedToRun d "example.k8s.local" ["i-0a5ed581b862d3425"] =
      some { Yes := false, CloudOnly := false, FailOnDrainError := true, FailOnValidate := true,
             PostDrainDelay := d.PostDrainDelay, ValidationTimeout := d.ValidationTimeout,
             ValidateCount := d.ValidateCount, ClusterName := "example.k8s.local",
             InstanceID := "i-0a5ed581b862d3425", Surge := true } := by
  refine ⟨rfl, rfl, ?_, ?_⟩
  · simp [NewCmdDeleteInstance, Command.BoolVar, Command.DurationVar, Command.Int32Var]
  · rfl

/-! ### The completion formatter -/

theorem len_append (a b : String) : len (a ++ b) = len a + len b := by
  cases a; cases b
  simp only [len, String.utf8ByteSize_mk]
  exact String.utf8Len_append _ _

theorem len_join_replicate (k : Nat) : len (String.join (List.replicate k " ")) = k := by
  induction k with
  | zero => rfl
  | succ n ih =>
    simp only [List.replicate_succ, String.join_eq, List.map_cons, List.flatten_cons, len,
      String.utf8ByteSize_mk, String.utf8Len_append] at ih ⊢
    rw [ih]
    simp [String.utf8Len, String.utf8ByteSize.go, Char.utf8Size]
    omega

theorem stringsRepeat_space (n : Int) (h : 0 ≤ n) :
    ∃ padding, stringsRepeat " " n = some padding ∧ (len padding : Int) = n := by
  refine ⟨String.join (List.replicate n.toNat " "), ?_, ?_⟩
  · simp [stringsRepeat, Int.not_lt.mpr h]
  · rw [len_join_replicate]
    exact Int.toNat_of_nonneg h

/-- The step of the `longestGroup` loop. -/
theorem longestGroup_foldl (l : Groups) (init : Int) :
    init ≤ l.foldl
        (fun longestGroup e =>
          match e.2.InstanceGroup with
          | some instanceGroup =>
            if longestGroup < (len instanceGroup.Name : Int) then (len instanceGroup.Name : Int)
            else longestGroup
          | none => longestGroup)
        init ∧
      ∀ e ∈ l, ∀ ig, e.2.InstanceGroup = some ig →
        (len ig.Name : Int) ≤ l.foldl
          (fun longestGroup e =>
            match e.2.InstanceGroup with
            | some instanceGroup =>
              if longestGroup < (len instanceGroup.Name : Int) then (len instanceGroup.Name : Int)
              else longestGroup
            | none => longestGroup)
          init := by
  induction l generalizing init with
  | nil => simp
  | cons a t ih =>
    simp only [List.foldl_cons, List.mem_cons]
    cases ha : a.2.InstanceGroup with
    | none =>
      refine ⟨(ih init).1, ?_⟩
      intro e he ig hig
      rcases he with he | he
      · subst he; rw [ha] at hig; exact Option.noConfusion hig
      · exact (ih init).2 e he ig hig
    | some g =>
      dsimp only
      by_cases hlt : init < (len g.Name : Int)
      · rw [if_pos hlt]
        refine ⟨le_trans (le_of_lt hlt) (ih _).1, ?_⟩
        intro e he ig hig
        rcases he with he | he
        · subst he
          rw [ha] at hig
          cases hig
          exact (ih _).1
        · exact (ih _).2 e he ig hig
      · rw [if_neg hlt]
        refine ⟨(ih init).1, ?_⟩
        intro e he ig hig
        rcases he with he | he
        · subst he
          rw [ha] at hig
          cases hig
          exact le_trans (not_lt.mp hlt) (ih init).1
        · exact (ih init).2 e he ig hig

theorem longestGroup_ge (groups : Groups) (e : String × CloudInstanceGroup) (he : e ∈ groups)
    (ig : InstanceGroup) (hig : e.2.InstanceGroup = some ig) :
    (len ig.Name : Int) ≤ longestGroup groups :=
  (longestGroup_foldl groups 0).2 e he ig hig

theorem foldlM_isSome {α β : Type} (f : β → α → Option β) (l : List α)
    (h : ∀ x ∈ l, ∀ acc, (f acc x).isSome = true) (init : β) :
    (l.foldlM f init).isSome = true := by
  induction l generalizing init with
  | nil => rfl
  | cons a t ih =>
    rw [List.foldlM_cons]
    have ha := h a (by simp) init
    obtain ⟨b, hb⟩ := Option.isSome_iff_exists.mp ha
    rw [hb]
    exact ih (fun x hx acc => h x (by simp [hx]) acc) b

/-- A call of `appendInstance` on an instance with a back-reference and a non-negative repeat
count does not panic. -/
theorem appendInstance_isSome (acc : List String) (inst : CloudInstance) (ref : GroupRef)
    (longest : Int) (href : inst.CloudInstanceGroup = some ref)
    (hcount : ∀ ig, ref.InstanceGroup = some ig → 0 ≤ longest + 1 - (len ig.Name : Int)) :
    (appendInstance acc inst longest).isSome = true := by
  cases hig : ref.InstanceGroup with
  | none => simp [appendInstance, href, hig]
  | some ig =>
    cases hnode : inst.Node with
    | none => simp [appendInstance, href, hig, hnode]
    | some node =>
      obtain ⟨padding, hpad, _⟩ := stringsRepeat_space _ (hcount ig hig)
      simp [appendInstance, href, hig, hnode, hpad]

theorem appendInstance_isSome_listed (groups : Groups) (hback : BackReferencesOK groups)
    (e : String × CloudInstanceGroup) (he : e ∈ groups) (inst : CloudInstance)
    (hinst : inst ∈ e.2.Ready ∨ inst ∈ e.2.NeedUpdate) (acc : List String) :
    (appendInstance acc inst (longestGroup groups)).isSome = true := by
  have href : inst.CloudInstanceGroup = some e.2.ref := by
    rcases hinst with h | h
    · exact (hback e he).1 inst h
    · exact (hback e he).2 inst h
  apply appendInstance_isSome acc inst e.2.ref (longestGroup groups) href
  intro ig hig
  have := longestGroup_ge groups e he ig hig
  omega

/-- The completion loop runs to its end without a panic. -/
theorem completions_isSome (groups : Groups) (hback : BackReferencesOK groups) :
    (completions groups).isSome = true := by
  unfold completions
  apply foldlM_isSome
  intro e he acc
  have h1 := foldlM_isSome (fun acc inst => appendInstance acc inst (longestGroup groups))
    e.2.Ready (fun x hx a => appendInstance_isSome_listed groups hback e he x (Or.inl hx) a) acc
  obtain ⟨acc1, hacc1⟩ := Option.isSome_iff_exists.mp h1
  simp only [hacc1, Option.bind_eq_bind, Option.some_bind]
  exact foldlM_isSome (fun acc inst => appendInstance acc inst (longestGroup groups))
    e.2.NeedUpdate (fun x hx a => appendInstance_isSome_listed groups hback e he x (Or.inr hx) a) acc1

/-- C10: when every instance points back to the group that lists it, the completion loop
never panics, and each call `appendInstance(completions, instance, longestGroup)` it makes has
a repeat count of at least 1; with a non-nil `InstanceGroup` and `Node` the call returns the
given completions followed by the node-name entry and the ID entry, in which the group name
and the padding together are `longestGroup + 1` bytes long; otherwise it returns the given
completions followed by one entry that starts with the instance ID. -/
theorem appendInstance_aligned (groups : Groups) (hback : BackReferencesOK groups)
    (e : String × CloudInstanceGroup) (he : e ∈ groups) (inst : CloudInstance)
    (hinst : inst ∈ e.2.Ready ∨ inst ∈ e.2.NeedUpdate) (completions : List String) :
    (Kops.completions groups).isSome = true ∧
    (∀ ig, e.2.InstanceGroup = some ig → 1 ≤ longestGroup groups + 1 - (len ig.Name : Int)) ∧
    (∀ ig node, e.2.InstanceGroup = some ig → inst.Node = some node →
      ∃ padding,
        stringsRepeat " " (longestGroup groups + 1 - (len ig.Name : Int)) = some padding ∧
        (len (ig.Name ++ padding) : Int) = longestGroup groups + 1 ∧
        appendInstance completions inst (longestGroup groups) =
          some (completions ++
            [node.Name ++ "\t" ++ ig.Name ++ padding ++ inst.ID,
             inst.ID ++ "\t" ++ ig.Name ++ padding ++ node.Name])) ∧
    ((e.2.InstanceGroup = none ∨ inst.Node = none) →
      ∃ rest, appendInstance completions inst (longestGroup groups) =
        some (completions ++ [inst.ID ++ rest])) := by
  refine ⟨completions_isSome groups hback, ?_⟩
  have href : inst.CloudInstanceGroup = some e.2.ref := by
    rcases hinst with h | h
    · exact (hback e he).1 inst h
    · exact (hback e he).2 inst h
  have hcount : ∀ ig, e.2.InstanceGroup = some ig →
      1 ≤ longestGroup groups + 1 - (len ig.Name : Int) := by
    intro ig hig
    have := longestGroup_ge groups e he ig hig
    omega
  refine ⟨hcount, ?_, ?_⟩
  · intro ig node hig hnode
    obtain ⟨padding, hpad, hlen⟩ :=
      stringsRepeat_space (longestGroup groups + 1 - (len ig.Name : Int))
        (le_trans (by decide) (hcount ig hig))
    refine ⟨padding, hpad, ?_, ?_⟩
    · rw [len_append]
      push_cast
      omega
    · simp [appendInstance, href, CloudInstanceGroup.ref, hig, hnode, hpad]
  · intro h
    cases hig : e.2.InstanceGroup with
    | none =>
      refine ⟨"", ?_⟩
      simp [appendInstance, href, CloudInstanceGroup.ref, hig]
    | some ig =>
      rcases h with h | h
      · rw [hig] at h; exact Option.noConfusion h
      · refine ⟨"\t" ++ ig.Name, ?_⟩
        simp [appendInstance, href, CloudInstanceGroup.ref, hig, h, String.append_assoc]

/-- C10, at the correlated instance of the example inventory, whose group name is as long as
the longest one: the padding is a single space. -/
theorem appendInstance_aligned_witness :
    appendInstance ["earlier"]
        ⟨"i-0a5ed581b862d3425", some ⟨"ip-10-0-0-5.ec2.internal"⟩, some ⟨some ⟨"nodes"⟩⟩⟩
        (longestGroup exampleGroups) =
      some ["earlier", "ip-10-0-0-5.ec2.internal\tnodes i-0a5ed581b862d3425",
        "i-0a5ed581b862d3425\tnodes ip-10-0-0-5.ec2.internal"] ∧
      ∃ rest, appendInstance ["earlier"] ⟨"i-0123456789abcdef0", none, some ⟨some ⟨"nodes"⟩⟩⟩
        (longestGroup exampleGroups) = some (["earlier"] ++ ["i-0123456789abcdef0" ++ rest]) :=
  ⟨by decide,
    (appendInstance_aligned exampleGroups (by unfold BackReferencesOK; decide)
      ("nodes", exampleGroup) (by decide)
      ⟨"i-0123456789abcdef0", none, some ⟨some ⟨"nodes"⟩⟩⟩ (by decide) ["earlier"]).2.2.2
      (Or.inr rfl)⟩

end Kops
